import Mathlib

/-!
Verification development for the `pixelgl` windowing/input layer of the
Tskken/pixel repository.  The Go sources under `pixelgl/` (window.go,
input.go, joystick.go) are shallowly embedded below: `float64` values are
modelled as `Rat`, Go fixed-size boolean arrays as total functions guarded
at every read/write site (a guard failure, i.e. a Go runtime panic on an
out-of-range index, is modelled as `Option.none`), Go slices as
`Option (List _)` (`none` models a nil slice), and the native GLFW window
as an explicit record of the display state the embedded operations touch.
-/

namespace Pixelgl

/-- Two-dimensional vector, embedding `pixel.Vec` (two `float64` fields). -/
structure Vec where
  x : Rat
  y : Rat
deriving DecidableEq, Repr

/-- Modelled from the spec: `pixel.ZV`, the zero vector of the repository's
root `pixel` package (not under `src/`). -/
def Vec.zv : Vec := ⟨0, 0⟩

/-- Vector addition, modelled from the spec: `pixel.Vec.Add` of the
repository's root `pixel` package (not under `src/`) adds componentwise. -/
def Vec.add (a b : Vec) : Vec := ⟨a.x + b.x, a.y + b.y⟩

/-- Axis-aligned rectangle, embedding `pixel.Rect` (`Min`, `Max` corners). -/
structure Rect where
  min : Vec
  max : Vec
deriving DecidableEq, Repr

/-- Modelled from the spec: `pixel.Rect.W` of the root `pixel` package
(not under `src/`), the width `Max.X - Min.X` of the rectangle. -/
def Rect.W (r : Rect) : Rat := r.max.x - r.min.x

/-- Modelled from the spec: `pixel.Rect.H` of the root `pixel` package
(not under `src/`), the height `Max.Y - Min.Y` of the rectangle. -/
def Rect.H (r : Rect) : Rat := r.max.y - r.min.y

/-- Modelled from the spec: `pixel.Rect.Size` of the root `pixel` package
(not under `src/`), the vector `(W, H)`. -/
def Rect.size (r : Rect) : Vec := ⟨r.W, r.H⟩

/-- Modelled from the spec: `pixel.Rect.ResizedMin` of the root `pixel`
package (not under `src/`), which returns the rectangle resized to the
given size while keeping the position of the rectangle's `Min` corner. -/
def Rect.resizedMin (r : Rect) (size : Vec) : Rect :=
  ⟨r.min, ⟨r.min.x + size.x, r.min.y + size.y⟩⟩

/-- Result of `intBounds`: integer x, y, width, height. -/
structure IntBounds where
  x : Int
  y : Int
  w : Int
  h : Int
deriving DecidableEq, Repr

/-- Modelled from the spec: `intBounds` of the `pixelgl` package (not under
`src/`), which rounds a logical rectangle to integer pixel bounds: the min
corner is floored, the max corner is ceiled, and width/height are the
differences ("the last known (integer-rounded) size"). -/
def intBounds (r : Rect) : IntBounds :=
  let x0 : Int := ⌊r.min.x⌋
  let y0 : Int := ⌊r.min.y⌋
  let x1 : Int := ⌈r.max.x⌉
  let y1 : Int := ⌈r.max.y⌉
  ⟨x0, y0, x1 - x0, y1 - y0⟩

/-- `glfw.KeyLast` (= `glfw.KeyMenu` = 348): highest key code; the input
buffers are Go arrays of size `KeyLast + 1`. -/
def keyLast : Int := 348

/-- `glfw.KeyUnknown` = -1. -/
def keyUnknown : Int := -1

/-- `glfw.MouseButtonLast` = 7. -/
def mouseButtonLast : Int := 7

/-- `glfw.JoystickLast` (= `glfw.Joystick16` = 15): highest joystick slot;
`prevJoy`/`currJoy` are Go arrays of size `JoystickLast + 1` = 16. -/
def joystickLast : Int := 15

/-- `glfw.Action` values: `Release` = 0, `Press` = 1, `Repeat` = 2. -/
def actionRelease : Nat := 0

/-- `glfw.Press` = 1. -/
def actionPress : Nat := 1

/-- `glfw.Repeat` = 2. -/
def actionRepeat : Nat := 2

/-- Contents of a Go `[KeyLast + 1]bool` array, as a total function; every
Go read/write of the array goes through the guarded accessors below. -/
def BoolArray : Type := Int → Bool

/-- Go array read `a[i]` on a `[KeyLast + 1]bool` array: in range it yields
the stored boolean, out of range the Go program panics (`none`). -/
def boolArrayGet (a : BoolArray) (i : Int) : Option Bool :=
  if 0 ≤ i ∧ i ≤ keyLast then some (a i) else none

/-- Go array write `a[i] = v` on a `[KeyLast + 1]bool` array: in range it
yields the updated array, out of range the Go program panics (`none`). -/
def boolArraySet (a : BoolArray) (i : Int) (v : Bool) : Option BoolArray :=
  if 0 ≤ i ∧ i ≤ keyLast then some (fun j => if j = i then v else a j) else none

/-- Embeds `inputState` (input.go): mouse position, button map, repeat map,
scroll accumulator and typed-text accumulator.  The Go field `repeat` is
named `rep` here because `repeat` is reserved in Lean. -/
structure InputState where
  mouse : Vec
  buttons : BoolArray
  rep : BoolArray
  scroll : Vec
  typed : String

/-- Embeds `joystickState` (joystick.go): connection flag, device name,
button snapshot (`none` models a nil Go slice) and axis snapshot. -/
structure JoystickState where
  connected : Bool
  name : String
  buttons : Option (List Nat)
  axes : Option (List Rat)
deriving DecidableEq, Repr

/-- Embeds `joystickState.getButton` (joystick.go): false for a nil
snapshot or an out-of-range index, otherwise whether the stored action is
`glfw.Press`. -/
def JoystickState.getButton (js : JoystickState) (button : Int) : Bool :=
  match js.buttons with
  | none => false
  | some bs =>
      if (bs.length : Int) ≤ button ∨ button < 0 then false
      else bs.getD button.toNat 0 == actionPress

/-- Embeds `joystickState.getAxis` (joystick.go): 0 for a nil snapshot or
an out-of-range index, otherwise the stored axis value. -/
def JoystickState.getAxis (js : JoystickState) (axis : Int) : Rat :=
  match js.axes with
  | none => 0
  | some as =>
      if (as.length : Int) ≤ axis ∨ axis < 0 then 0
      else as.getD axis.toNat 0

/-- The zero value of Go's `joystickState`, to which a disconnected slot is
reset. -/
def JoystickState.zero : JoystickState :=
  { connected := false, name := "", buttons := none, axes := none }

/-- One polling cycle's native joystick answers, per slot: `IsGamepad`,
`GetName`, `GetButtons`, `GetAxes` (external GLFW device enumeration). -/
structure JoyPoll where
  isGamepad : Fin 16 → Bool
  name : Fin 16 → String
  buttons : Fin 16 → List Nat
  axes : Fin 16 → List Rat

/-- The native GLFW window state touched by the embedded operations:
current fullscreen monitor handle (`none` = windowed), position, size and
cursor position (external `Display` capability). -/
structure GlfwWindow where
  monitor : Option Nat
  xpos : Int
  ypos : Int
  width : Int
  height : Int
  cursorX : Rat
  cursorY : Rat
deriving DecidableEq, Repr

/-- A Go `*Monitor` value: `ptr` is the Go pointer identity of the wrapper
allocation, `handle` the underlying native monitor handle it wraps. -/
structure MonRef where
  ptr : Nat
  handle : Nat
deriving DecidableEq, Repr

/-- A monitor's video mode (resolution and refresh rate). -/
structure VideoMode where
  width : Int
  height : Int
  refreshRate : Int
deriving DecidableEq, Repr

/-- The window's fullscreen-restore record (window.go `restore` struct). -/
structure Restore where
  xpos : Int
  ypos : Int
  width : Int
  height : Int
deriving DecidableEq, Repr

/-- Embeds the `Window` struct (window.go): logical bounds, the three input
slots (`prevInp`, `currInp`, `tempInp`), the joystick double buffer, the
restore record and the native window state. -/
structure Window where
  bounds : Rect
  prevInp : InputState
  currInp : InputState
  tempInp : InputState
  prevJoy : Fin 16 → JoystickState
  currJoy : Fin 16 → JoystickState
  restore : Restore
  native : GlfwWindow

/-! ### Input queries (input.go) -/

/-- Embeds `Window.Pressed` (input.go): `w.currInp.buttons[button]`, an
unchecked Go array access (out of range panics, modelled as `none`). -/
def Window.Pressed (w : Window) (button : Int) : Option Bool :=
  boolArrayGet w.currInp.buttons button

/-- Embeds `Window.JustPressed` (input.go):
`w.currInp.buttons[button] && !w.prevInp.buttons[button]`. -/
def Window.JustPressed (w : Window) (button : Int) : Option Bool :=
  match boolArrayGet w.currInp.buttons button, boolArrayGet w.prevInp.buttons button with
  | some c, some p => some (c && !p)
  | _, _ => none

/-- Embeds `Window.JustReleased` (input.go):
`!w.currInp.buttons[button] && w.prevInp.buttons[button]`. -/
def Window.JustReleased (w : Window) (button : Int) : Option Bool :=
  match boolArrayGet w.currInp.buttons button, boolArrayGet w.prevInp.buttons button with
  | some c, some p => some (!c && p)
  | _, _ => none

/-- Embeds `Window.Repeated` (input.go): `w.currInp.repeat[button]`. -/
def Window.Repeated (w : Window) (button : Int) : Option Bool :=
  boolArrayGet w.currInp.rep button

/-- Embeds `Window.MousePosition` (input.go): `w.currInp.mouse`. -/
def Window.MousePosition (w : Window) : Vec := w.currInp.mouse

/-- Embeds `Window.MousePreviousPosition` (input.go): `w.prevInp.mouse`. -/
def Window.MousePreviousPosition (w : Window) : Vec := w.prevInp.mouse

/-- Embeds `Window.MouseScroll` (input.go): `w.currInp.scroll`. -/
def Window.MouseScroll (w : Window) : Vec := w.currInp.scroll

/-- Embeds `Window.Typed` (input.go): `w.currInp.typed`. -/
def Window.Typed (w : Window) : String := w.currInp.typed

/-- Embeds `Window.SetMousePosition` (input.go): if `v` lies within
`[0, bounds.W()] x [0, bounds.H()]`, warp the native cursor to
`(v.X + bounds.Min.X, (bounds.H() - v.Y) + bounds.Min.Y)` and set the
pending, current and previous mouse positions to `v`; otherwise do
nothing. -/
def Window.SetMousePosition (w : Window) (v : Vec) : Window :=
  if (0 ≤ v.x ∧ v.x ≤ w.bounds.W) ∧ (0 ≤ v.y ∧ v.y ≤ w.bounds.H) then
    { w with
      native := { w.native with
        cursorX := v.x + w.bounds.min.x
        cursorY := (w.bounds.H - v.y) + w.bounds.min.y }
      prevInp := { w.prevInp with mouse := v }
      currInp := { w.currInp with mouse := v }
      tempInp := { w.tempInp with mouse := v } }
  else w

/-! ### Event callbacks (input.go `initInput`) -/

/-- Embeds the mouse-button callback registered in `initInput` (input.go):
on `Press` set `tempInp.buttons[button] = true`, on `Release` set it false,
otherwise do nothing.  The array write is guarded (`none` models an
out-of-range panic). -/
def mouseButtonCallback (st : InputState) (button : Int) (action : Nat) :
    Option InputState :=
  if action = actionPress then
    (boolArraySet st.buttons button true).map (fun b => { st with buttons := b })
  else if action = actionRelease then
    (boolArraySet st.buttons button false).map (fun b => { st with buttons := b })
  else
    some st

/-- Embeds the key callback registered in `initInput` (input.go): a key
event with code `glfw.KeyUnknown` returns before any write; otherwise
`Press`/`Release` write `tempInp.buttons[key]` and `Repeat` writes
`tempInp.repeat[key]`. -/
def keyCallback (st : InputState) (key : Int) (action : Nat) :
    Option InputState :=
  if key = keyUnknown then some st
  else if action = actionPress then
    (boolArraySet st.buttons key true).map (fun b => { st with buttons := b })
  else if action = actionRelease then
    (boolArraySet st.buttons key false).map (fun b => { st with buttons := b })
  else if action = actionRepeat then
    (boolArraySet st.rep key true).map (fun b => { st with rep := b })
  else
    some st

/-- Embeds the cursor-position callback registered in `initInput`
(input.go): stores the window-space position, converted to logical
bounds-space, into the pending mouse position. -/
def cursorPosCallback (w : Window) (x y : Rat) : Window :=
  { w with tempInp := { w.tempInp with
      mouse := ⟨x + w.bounds.min.x, (w.bounds.H - y) + w.bounds.min.y⟩ } }

/-- A key event delivered to the window: applies `keyCallback` to the
pending input slot. -/
def Window.onKey (w : Window) (key : Int) (action : Nat) : Option Window :=
  (keyCallback w.tempInp key action).map (fun st => { w with tempInp := st })

/-- A mouse-button event delivered to the window: applies
`mouseButtonCallback` to the pending input slot. -/
def Window.onMouseButton (w : Window) (button : Int) (action : Nat) :
    Option Window :=
  (mouseButtonCallback w.tempInp button action).map
    (fun st => { w with tempInp := st })

/-! ### Joystick operations (joystick.go) -/

/-- Go array access `w.currJoy[js]` / `w.prevJoy[js]` on the size-16
joystick array: out of range panics (`none`). -/
def joyGet (a : Fin 16 → JoystickState) (js : Int) : Option JoystickState :=
  if h : 0 ≤ js ∧ js < 16 then some (a ⟨js.toNat, by omega⟩) else none

/-- Embeds `Window.JoystickPresent` (joystick.go):
`w.currJoy[js].connected`. -/
def Window.JoystickPresent (w : Window) (js : Int) : Option Bool :=
  (joyGet w.currJoy js).map (fun st => st.connected)

/-- Embeds `Window.JoystickPressed` (joystick.go):
`w.currJoy[js].getButton(button)`. -/
def Window.JoystickPressed (w : Window) (js button : Int) : Option Bool :=
  (joyGet w.currJoy js).map (fun st => st.getButton button)

/-- Embeds `Window.JoystickJustPressed` (joystick.go):
`w.currJoy[js].getButton(button) && !w.prevJoy[js].getButton(button)`. -/
def Window.JoystickJustPressed (w : Window) (js button : Int) : Option Bool :=
  match joyGet w.currJoy js, joyGet w.prevJoy js with
  | some c, some p => some (c.getButton button && !(p.getButton button))
  | _, _ => none

/-- Embeds `Window.JoystickJustReleased` (joystick.go):
`!w.currJoy[js].getButton(button) && w.prevJoy[js].getButton(button)`. -/
def Window.JoystickJustReleased (w : Window) (js button : Int) : Option Bool :=
  match joyGet w.currJoy js, joyGet w.prevJoy js with
  | some c, some p => some (!(c.getButton button) && p.getButton button)
  | _, _ => none

/-- Embeds `Window.JoystickAxis` (joystick.go):
`w.currJoy[js].getAxis(axis)`. -/
def Window.JoystickAxis (w : Window) (js axis : Int) : Option Rat :=
  (joyGet w.currJoy js).map (fun st => st.getAxis axis)

/-- The loop body of `updateJoystickInput` (joystick.go) acting on slot
`js`: if the native slot is a gamepad, mark it connected (caching the name
on the transition) and snapshot its buttons and axes; otherwise, if it was
connected, reset the slot to the zero value. -/
def pollSlot (p : JoyPoll) (js : Fin 16) (st : JoystickState) : JoystickState :=
  if p.isGamepad js then
    let st := if !st.connected then
        { st with connected := true, name := p.name js }
      else st
    { st with buttons := some (p.buttons js), axes := some (p.axes js) }
  else
    if st.connected then JoystickState.zero else st

/-- Embeds `Window.updateJoystickInput` (joystick.go) on the joystick
double buffer: for each slot `js` from `Joystick1` to `JoystickLast`, FIRST
copy the whole current array into the previous array (`w.prevJoy =
w.currJoy` stands inside the loop in the source), then update the current
slot from the native poll. -/
def updateJoystickInput (p : JoyPoll)
    (bufs : (Fin 16 → JoystickState) × (Fin 16 → JoystickState)) :
    (Fin 16 → JoystickState) × (Fin 16 → JoystickState) :=
  (List.finRange 16).foldl
    (fun s js =>
      (s.2, fun j => if j = js then pollSlot p js (s.2 js) else s.2 j))
    bufs

/-- Embeds `Window.UpdateInput` (input.go): after the native event poll
(whose callbacks have already been applied to `tempInp` via
`Window.onKey`/`Window.onMouseButton`/`cursorPosCallback`), rotate the
buffers — `prevInp := currInp; currInp := tempInp` — reset only the
pending repeat map, scroll accumulator and typed string, and refresh the
joystick state. -/
def Window.UpdateInput (w : Window) (p : JoyPoll) : Window :=
  let w1 : Window := { w with
    prevInp := w.currInp
    currInp := w.tempInp
    tempInp := { w.tempInp with rep := fun _ => false, scroll := Vec.zv, typed := "" } }
  let j := updateJoystickInput p (w1.prevJoy, w1.currJoy)
  { w1 with prevJoy := j.1, currJoy := j.2 }

/-! ### Window lifecycle (window.go) -/

/-- Embeds the bounds re-derivation at the start of `Window.Update`
(window.go): with `(_, _, oldW, oldH) := intBounds(w.bounds)` and
`(newW, newH)` the current native size, the new bounds are
`w.bounds.ResizedMin(w.bounds.Size().Add(V(newW - oldW, newH - oldH)))`. -/
def updateBounds (b : Rect) (newW newH : Int) : Rect :=
  let ib := intBounds b
  b.resizedMin (b.size.add ⟨((newW - ib.w : Int) : Rat), ((newH - ib.h : Int) : Rat)⟩)

/-- Embeds `Window.Monitor` (window.go): query the native window's current
monitor; when fullscreen, allocate a fresh `&Monitor{...}` wrapper around
the handle (`fresh` is the Go pointer identity of that new allocation),
when windowed return nil. -/
def Window.Monitor (w : Window) (fresh : Nat) : Option MonRef :=
  w.native.monitor.map (fun h => ⟨fresh, h⟩)

/-- Go `!=` on two `*Monitor` values: pointer inequality (nil equals only
nil; two non-nil pointers are equal only when they are the same
allocation). -/
def ptrNe (a b : Option MonRef) : Bool :=
  match a, b with
  | none, none => false
  | some x, some y => !(x.ptr == y.ptr)
  | _, _ => true

/-- Embeds `Window.setFullscreen` (window.go): capture the current native
position and size into the restore record, then natively switch to the
monitor at its video mode's resolution and refresh rate (position 0,0). -/
def Window.setFullscreen (w : Window) (m : MonRef) (modes : Nat → VideoMode) :
    Window :=
  let mode := modes m.handle
  { w with
    restore := ⟨w.native.xpos, w.native.ypos, w.native.width, w.native.height⟩
    native := { w.native with
      monitor := some m.handle
      xpos := 0
      ypos := 0
      width := mode.width
      height := mode.height } }

/-- Embeds `Window.setWindowed` (window.go): natively leave fullscreen,
restoring position and size from the restore record. -/
def Window.setWindowed (w : Window) : Window :=
  { w with native := { w.native with
      monitor := none
      xpos := w.restore.xpos
      ypos := w.restore.ypos
      width := w.restore.width
      height := w.restore.height } }

/-- Embeds `Window.SetMonitor` (window.go): `if w.Monitor() != monitor`
(a Go pointer comparison against the freshly allocated wrapper returned by
`Monitor()`) enter fullscreen on a non-nil argument, else restore windowed
state; when the pointer comparison finds the two equal, do nothing. -/
def Window.SetMonitor (w : Window) (monitor : Option MonRef) (fresh : Nat)
    (modes : Nat → VideoMode) : Window :=
  if ptrNe (w.Monitor fresh) monitor then
    match monitor with
    | some m => w.setFullscreen m modes
    | none => w.setWindowed
  else w

/-- Modelled from the spec: `errors.Wrap` of the external `pkg/errors`
library renders as `"<message>: <cause>"` ("creating window failed:
<cause>"). -/
def errorsWrap (cause msg : String) : String := msg ++ ": " ++ cause

/-- The all-clear input slot a fresh `Window` starts with (Go zero
value). -/
def InputState.zero : InputState :=
  { mouse := Vec.zv, buttons := fun _ => false, rep := fun _ => false
    scroll := Vec.zv, typed := "" }

/-- Embeds `NewWindow` (window.go) up to the error contract of the claims:
the native `glfw.CreateWindow` outcome is the `create` argument; on
failure `NewWindow` returns a nil window and the cause wrapped with
"creating window failed", on success it returns the freshly initialised
non-nil window.  (Icon rasterisation, vsync, the initial `SetMonitor` and
the first `Update` mutate only the already-constructed window and are
omitted.) -/
def NewWindow (width height : Int) (create : Except String GlfwWindow) :
    Except String Window :=
  match create with
  | .error cause => .error (errorsWrap cause "creating window failed")
  | .ok g => .ok
      { bounds := ⟨⟨0, 0⟩, ⟨((width : Int) : Rat), ((height : Int) : Rat)⟩⟩
        prevInp := InputState.zero
        currInp := InputState.zero
        tempInp := InputState.zero
        prevJoy := fun _ => JoystickState.zero
        currJoy := fun _ => JoystickState.zero
        restore := ⟨0, 0, 0, 0⟩
        native := g }

/-! ### Concrete fixtures used by witnesses and counterexamples -/

/-- A windowed 800 x 600 window at the origin with all-clear input state. -/
def w0 : Window :=
  { bounds := ⟨⟨0, 0⟩, ⟨800, 600⟩⟩
    prevInp := InputState.zero
    currInp := InputState.zero
    tempInp := InputState.zero
    prevJoy := fun _ => JoystickState.zero
    currJoy := fun _ => JoystickState.zero
    restore := ⟨0, 0, 0, 0⟩
    native := { monitor := none, xpos := 30, ypos := 40, width := 800,
                height := 600, cursorX := 0, cursorY := 0 } }

/-- A polling cycle with no gamepad present on any slot. -/
def pollNone : JoyPoll :=
  { isGamepad := fun _ => false, name := fun _ => ""
    buttons := fun _ => [], axes := fun _ => [] }

/-- A polling cycle with one gamepad on slot 0 whose single button is
released. -/
def pollReleased : JoyPoll :=
  { isGamepad := fun js => js == 0, name := fun _ => "pad"
    buttons := fun js => if js == 0 then [actionRelease] else []
    axes := fun _ => [] }

/-- A polling cycle with one gamepad on slot 0 whose single button is
pressed. -/
def pollPressed : JoyPoll :=
  { isGamepad := fun js => js == 0, name := fun _ => "pad"
    buttons := fun js => if js == 0 then [actionPress] else []
    axes := fun _ => [] }

/-- The window after one update cycle in which slot 0's button was
released. -/
def wJoy1 : Window := w0.UpdateInput pollReleased

/-- The window after a further update cycle in which slot 0's button is
pressed: the prior cycle's snapshot has the button released, the current
one has it pressed. -/
def wJoy2 : Window := wJoy1.UpdateInput pollPressed

/-- A window whose logical bounds have a non-zero minimum corner
(min (10, 20), size 800 x 600). -/
def wOff : Window := { w0 with bounds := ⟨⟨10, 20⟩, ⟨810, 620⟩⟩ }

/-- A window fullscreen on native monitor handle 5 with a meaningful
restore record. -/
def wFS : Window :=
  { w0 with
    native := { w0.native with
      monitor := some 5
      xpos := 0
      ypos := 0
      width := 1920
      height := 1080 }
    restore := ⟨100, 150, 800, 600⟩ }

/-- A fixed video-mode table: every monitor runs 1920 x 1080 at 60 Hz. -/
def modes0 : Nat → VideoMode := fun _ => ⟨1920, 1080, 60⟩

/-- A window whose pending buffer has button 3 pressed (a press callback
arrived and no release ever follows). -/
def wPress : Window :=
  { w0 with tempInp := { InputState.zero with buttons := fun i => i == 3 } }

/-! ### Helper lemmas -/

theorem updateInput_prevInp (w : Window) (p : JoyPoll) :
    (w.UpdateInput p).prevInp = w.currInp := rfl

theorem updateInput_currInp (w : Window) (p : JoyPoll) :
    (w.UpdateInput p).currInp = w.tempInp := rfl

theorem updateInput_tempInp_buttons (w : Window) (p : JoyPoll) :
    (w.UpdateInput p).tempInp.buttons = w.tempInp.buttons := rfl

theorem iterate_updateInput_tempInp_buttons (p : JoyPoll) :
    ∀ (n : Nat) (w : Window),
      ((fun v => Window.UpdateInput v p)^[n] w).tempInp.buttons
        = w.tempInp.buttons := by
  intro n
  induction n with
  | zero => intro w; rfl
  | succ n ih =>
      intro w
      rw [Function.iterate_succ_apply]
      exact ih (Window.UpdateInput w p)

theorem boolArrayGet_in_range (a : BoolArray) (b : Int)
    (h0 : 0 ≤ b) (h1 : b ≤ keyLast) : boolArrayGet a b = some (a b) := by
  simp only [boolArrayGet]
  rw [if_pos ⟨h0, h1⟩]

theorem pressed_some (w : Window) (b : Int) (h0 : 0 ≤ b) (h1 : b ≤ keyLast) :
    w.Pressed b = some (w.currInp.buttons b) := by
  simp only [Window.Pressed, boolArrayGet_in_range _ _ h0 h1]

theorem justPressed_some (w : Window) (b : Int) (h0 : 0 ≤ b)
    (h1 : b ≤ keyLast) :
    w.JustPressed b = some (w.currInp.buttons b && !(w.prevInp.buttons b)) := by
  simp only [Window.JustPressed, boolArrayGet_in_range _ _ h0 h1]

theorem justReleased_some (w : Window) (b : Int) (h0 : 0 ≤ b)
    (h1 : b ≤ keyLast) :
    w.JustReleased b = some (!(w.currInp.buttons b) && w.prevInp.buttons b) := by
  simp only [Window.JustReleased, boolArrayGet_in_range _ _ h0 h1]

/-! ### Claim theorems -/

/-- Claim C1: the input rotation performed once per `Update` (in
`UpdateInput`, after polling events) is exactly `previous := current;
current := pending`, then only the pending repeat flags, pending scroll
accumulator and pending typed string are reset; the pending button map
(and pending mouse position) are not cleared, so a button pressed in the
pending buffer and never released reports `Pressed` after every subsequent
`UpdateInput`. -/
theorem updateInput_rotation (w : Window) (p : JoyPoll) :
    (w.UpdateInput p).prevInp = w.currInp ∧
    (w.UpdateInput p).currInp = w.tempInp ∧
    (w.UpdateInput p).tempInp.rep = (fun _ => false) ∧
    (w.UpdateInput p).tempInp.scroll = Vec.zv ∧
    (w.UpdateInput p).tempInp.typed = "" ∧
    (w.UpdateInput p).tempInp.buttons = w.tempInp.buttons ∧
    (w.UpdateInput p).tempInp.mouse = w.tempInp.mouse ∧
    (∀ (b : Int) (n : Nat), 0 ≤ b → b ≤ keyLast →
      w.tempInp.buttons b = true →
      ((fun v => Window.UpdateInput v p)^[n + 1] w).Pressed b = some true) := by
  refine ⟨rfl, rfl, rfl, rfl, rfl, rfl, rfl, ?_⟩
  intro b n h0 h1 hb
  rw [Function.iterate_succ_apply']
  show boolArrayGet ((fun v => Window.UpdateInput v p)^[n] w).tempInp.buttons b
      = some true
  rw [boolArrayGet_in_range _ _ h0 h1, iterate_updateInput_tempInp_buttons, hb]

/-- Witness for C1 at a concrete window whose pending buffer has button 3
pressed. -/
theorem updateInput_rotation_witness :
    (wPress.UpdateInput pollNone).prevInp = wPress.currInp ∧
    ((fun v => Window.UpdateInput v pollNone)^[1] wPress).Pressed 3
      = some true :=
  ⟨(updateInput_rotation wPress pollNone).1,
   (updateInput_rotation wPress pollNone).2.2.2.2.2.2.2 3 0 (by decide)
     (by decide) (by decide)⟩

/-- Claim C2: a button that starts unpressed, receives a press callback
between the first and second `Update`, and a release callback between the
second and third, reports `JustPressed` and `Pressed` after the second
update, and `JustReleased` and not `Pressed` after the third. -/
theorem button_edge_three_frames (w : Window) (p1 p2 p3 : JoyPoll) (b : Int)
    (h0 : 0 ≤ b) (h1 : b ≤ keyLast)
    (hTemp : w.tempInp.buttons b = false)
    (_hCurr : w.currInp.buttons b = false)
    (w1 wp w2 wr w3 : Window)
    (e1 : w1 = w.UpdateInput p1)
    (e2 : w1.onKey b actionPress = some wp)
    (e3 : w2 = wp.UpdateInput p2)
    (e4 : w2.onKey b actionRelease = some wr)
    (e5 : w3 = wr.UpdateInput p3) :
    w2.JustPressed b = some true ∧ w2.Pressed b = some true ∧
    w3.JustReleased b = some true ∧ w3.Pressed b = some false := by
  have hne : ¬(b = keyUnknown) := by simp only [keyUnknown]; omega
  simp only [Window.onKey, keyCallback, boolArraySet, if_neg hne, if_pos rfl,
    if_pos (show 0 ≤ b ∧ b ≤ keyLast from ⟨h0, h1⟩), Option.map] at e2
  obtain rfl := (Option.some.inj e2).symm
  simp only [Window.onKey, keyCallback, boolArraySet, if_neg hne,
    if_neg (show ¬(actionRelease = actionPress) by decide), if_pos rfl,
    if_pos (show 0 ≤ b ∧ b ≤ keyLast from ⟨h0, h1⟩), Option.map] at e4
  obtain rfl := (Option.some.inj e4).symm
  subst e1 e3 e5
  rw [justPressed_some _ _ h0 h1, justReleased_some _ _ h0 h1,
    pressed_some _ _ h0 h1, pressed_some _ _ h0 h1]
  refine ⟨?_, ?_, ?_, ?_⟩ <;>
    simp [updateInput_currInp, updateInput_prevInp,
      updateInput_tempInp_buttons, hTemp]

/-- The concrete window after the first update in the C2 scenario. -/
def c2w1 : Window := w0.UpdateInput pollNone

/-- `c2w1` after the press callback for button 3. -/
def c2wp : Window :=
  { c2w1 with tempInp := { c2w1.tempInp with
      buttons := fun j => if j = 3 then true else c2w1.tempInp.buttons j } }

/-- The window after the second update in the C2 scenario. -/
def c2w2 : Window := c2wp.UpdateInput pollNone

/-- `c2w2` after the release callback for button 3. -/
def c2wr : Window :=
  { c2w2 with tempInp := { c2w2.tempInp with
      buttons := fun j => if j = 3 then false else c2w2.tempInp.buttons j } }

/-- The window after the third update in the C2 scenario. -/
def c2w3 : Window := c2wr.UpdateInput pollNone

/-- Witness for C2: the concrete window `w0`, button 3, pressed between
the first and second update and released between the second and third. -/
theorem button_edge_three_frames_witness :
    c2w2.JustPressed 3 = some true ∧ c2w2.Pressed 3 = some true ∧
    c2w3.JustReleased 3 = some true ∧ c2w3.Pressed 3 = some false :=
  button_edge_three_frames w0 pollNone pollNone pollNone 3
    (by decide) (by decide) (by decide) (by decide)
    c2w1 c2wp c2w2 c2wr c2w3 rfl rfl rfl rfl rfl

/-- Claim C3 (code evaluation at the failing input): one gamepad sits on
slot 0; during the prior update cycle its button 0 polled released, during
the current cycle it polls pressed.  The claim (and the spec's
double-buffering contract) demand `JoystickJustPressed(0, 0) = true` after
the second cycle, but because `updateJoystickInput` executes
`w.prevJoy = w.currJoy` inside the per-slot loop, the previous buffer has
already been overwritten with the current cycle's slot-0 snapshot by the
time the loop finishes, and the query returns `false`. -/
theorem joystick_prev_buffer_bug_eval :
    wJoy1.JoystickPressed 0 0 = some false ∧
    wJoy2.JoystickPressed 0 0 = some true ∧
    (wJoy2.prevJoy ⟨0, by omega⟩).getButton 0 = true ∧
    wJoy2.JoystickJustPressed 0 0 = some false := by decide

/-- Claim C5 (counterexample): `Pressed` with the out-of-range button index
349 (= `KeyLast` + 1) and `JoystickPressed` with the out-of-range slot
index 16 are unchecked Go array accesses that panic (`none`) instead of
returning the default `false` the claim promises for every index. -/
theorem pressed_out_of_range_cex :
    w0.Pressed 349 = none ∧ w0.JoystickPressed 16 0 = none := by decide

/-- Claim C5 (amended): for a slot index within the joystick array, the
joystick queries are total in the button/axis index — any `Int` index
yields a value — and `getButton`/`getAxis` return `false`/`0` for a nil
snapshot (disconnected device), a negative index or an index at or beyond
the snapshot length; the keyboard `Pressed` index and the joystick slot
index themselves are unchecked array accesses. -/
theorem joystick_queries_total_amended (w : Window) (js button axis : Int)
    (h0 : 0 ≤ js) (h1 : js < 16) :
    (w.JoystickPressed js button).isSome = true ∧
    (w.JoystickJustPressed js button).isSome = true ∧
    (w.JoystickJustReleased js button).isSome = true ∧
    (w.JoystickAxis js axis).isSome = true ∧
    (∀ st : JoystickState, st.buttons = none → st.getButton button = false) ∧
    (∀ st : JoystickState, button < 0 → st.getButton button = false) ∧
    (∀ (st : JoystickState) (bs : List Nat), st.buttons = some bs →
      (bs.length : Int) ≤ button → st.getButton button = false) ∧
    (∀ st : JoystickState, st.axes = none → st.getAxis axis = 0) ∧
    (∀ st : JoystickState, axis < 0 → st.getAxis axis = 0) ∧
    (∀ (st : JoystickState) (as : List Rat), st.axes = some as →
      (as.length : Int) ≤ axis → st.getAxis axis = 0) := by
  have hget : ∀ a : Fin 16 → JoystickState,
      joyGet a js = some (a ⟨js.toNat, by omega⟩) := by
    intro a
    simp [joyGet, h0, h1]
  refine ⟨?_, ?_, ?_, ?_, ?_, ?_, ?_, ?_, ?_, ?_⟩
  · simp [Window.JoystickPressed, hget]
  · simp [Window.JoystickJustPressed, hget]
  · simp [Window.JoystickJustReleased, hget]
  · simp [Window.JoystickAxis, hget]
  · intro st hb
    simp [JoystickState.getButton, hb]
  · intro st hneg
    unfold JoystickState.getButton
    cases st.buttons with
    | none => rfl
    | some bs =>
        show (if (bs.length : Int) ≤ button ∨ button < 0 then false
          else bs.getD button.toNat 0 == actionPress) = false
        rw [if_pos (Or.inr hneg)]
  · intro st bs hbs hlen
    unfold JoystickState.getButton
    rw [hbs]
    show (if (bs.length : Int) ≤ button ∨ button < 0 then false
      else bs.getD button.toNat 0 == actionPress) = false
    rw [if_pos (Or.inl hlen)]
  · intro st ha
    simp [JoystickState.getAxis, ha]
  · intro st hneg
    unfold JoystickState.getAxis
    cases st.axes with
    | none => rfl
    | some as =>
        show (if (as.length : Int) ≤ axis ∨ axis < 0 then 0
          else as.getD axis.toNat 0) = 0
        rw [if_pos (Or.inr hneg)]
  · intro st as has hlen
    unfold JoystickState.getAxis
    rw [has]
    show (if (as.length : Int) ≤ axis ∨ axis < 0 then 0
      else as.getD axis.toNat 0) = 0
    rw [if_pos (Or.inl hlen)]

/-- Witness for the amended C5 at slot 0 with the negative button index
-3. -/
theorem joystick_queries_total_amended_witness :
    (w0.JoystickPressed 0 (-3)).isSome = true ∧
    JoystickState.zero.getButton (-3) = false ∧
    JoystickState.zero.getAxis (-2) = 0 :=
  ⟨(joystick_queries_total_amended w0 0 (-3) (-2) (by decide) (by decide)).1,
   (joystick_queries_total_amended w0 0 (-3) (-2) (by decide)
     (by decide)).2.2.2.2.2.1 JoystickState.zero (by decide),
   (joystick_queries_total_amended w0 0 (-3) (-2) (by decide)
     (by decide)).2.2.2.2.2.2.2.2.1 JoystickState.zero (by decide)⟩

/-- Claim C4 (counterexample): the window is fullscreen on native monitor
handle 5, and `SetMonitor` is called with a wrapper for that same handle 5.
The claim says this is a no-op with the restore record untouched, but the
Go code compares `w.Monitor() != monitor` by wrapper pointer — and
`Monitor()` returns a fresh allocation (pointer 2) that can never equal
the caller's wrapper (pointer 1) — so `setFullscreen` runs again and
overwrites the restore record with the current (fullscreen) geometry. -/
theorem setMonitor_same_handle_cex :
    (wFS.SetMonitor (some ⟨1, 5⟩) 2 modes0).restore ≠ wFS.restore := by decide

/-- Claim C4 (amended): `SetMonitor(nil)` on an already-windowed window is
a no-op (the whole window state, including position, size and the restore
record, is unchanged); but for a non-nil argument the comparison is by
wrapper pointer identity, and since `Monitor()` allocates a fresh wrapper
the two are never equal, so `SetMonitor(m)` always re-runs
`setFullscreen` — even when `m` wraps the current fullscreen monitor's
handle — mutating the restore record. -/
theorem setMonitor_noop_amended (w : Window) (fresh : Nat)
    (modes : Nat → VideoMode) :
    (w.native.monitor = none → w.SetMonitor none fresh modes = w) ∧
    (∀ (h : Nat) (p : Nat), w.native.monitor = some h → ¬(p = fresh) →
      w.SetMonitor (some ⟨p, h⟩) fresh modes
        = w.setFullscreen ⟨p, h⟩ modes) := by
  constructor
  · intro hm
    simp [Window.SetMonitor, Window.Monitor, hm, ptrNe]
  · intro h p hm hp
    have hb : (fresh == p) = false :=
      beq_eq_false_iff_ne.mpr (fun hh => hp hh.symm)
    simp [Window.SetMonitor, Window.Monitor, hm, ptrNe, hb]

/-- Witness for the amended C4: the windowed `w0` is untouched by
`SetMonitor(nil)`, and the fullscreen `wFS` re-enters fullscreen on its
own monitor handle 5. -/
theorem setMonitor_noop_amended_witness :
    w0.SetMonitor none 7 modes0 = w0 ∧
    wFS.SetMonitor (some ⟨1, 5⟩) 2 modes0 = wFS.setFullscreen ⟨1, 5⟩ modes0 :=
  ⟨(setMonitor_noop_amended w0 7 modes0).1 rfl,
   (setMonitor_noop_amended wFS 2 modes0).2 5 1 rfl (by decide)⟩

/-- Claim C6 (counterexample): on a window whose bounds have minimum corner
(10, 20), `SetMousePosition((0, 0))` warps the native cursor X to
`0 + Min.X = 10`.  The inverse of the cursor-position callback transform
(`logical.x = raw.x + Min.X`) would put the raw cursor at `-10`; feeding
the actual warp target back through the callback transform yields 20, not
the requested 0, so the warp is not performed via the inverse coordinate
transform. -/
theorem setMousePosition_inverse_cex :
    (wOff.SetMousePosition ⟨0, 0⟩).native.cursorX = 10 ∧
    ¬((wOff.SetMousePosition ⟨0, 0⟩).native.cursorX + wOff.bounds.min.x
        = 0) := by
  have hc : (0 ≤ (0:Rat) ∧ (0:Rat) ≤ wOff.bounds.W) ∧
      (0 ≤ (0:Rat) ∧ (0:Rat) ≤ wOff.bounds.H) := by
    norm_num [wOff, w0, Rect.W, Rect.H]
  rw [Window.SetMousePosition, if_pos hc]
  constructor <;> norm_num [wOff, w0]

/-- Claim C6 (amended): an in-bounds `SetMousePosition(v)` warps the
native cursor to `(v.X + bounds.Min.X, (bounds.H() - v.Y) + bounds.Min.Y)`
— the Y component inverts the cursor callback transform, but the X
component adds `Min.X` where the inverse would subtract it — and sets the
pending, current and previous mouse positions to `v` immediately, so
`MousePosition` and `MousePreviousPosition` both return `v` without
waiting for an `Update`; an out-of-bounds `v` leaves the whole window
state unchanged. -/
theorem setMousePosition_amended (w : Window) (v : Vec) :
    (((0 ≤ v.x ∧ v.x ≤ w.bounds.W) ∧ (0 ≤ v.y ∧ v.y ≤ w.bounds.H)) →
      (w.SetMousePosition v).native.cursorX = v.x + w.bounds.min.x ∧
      (w.SetMousePosition v).native.cursorY
        = (w.bounds.H - v.y) + w.bounds.min.y ∧
      (w.SetMousePosition v).MousePosition = v ∧
      (w.SetMousePosition v).MousePreviousPosition = v ∧
      (w.SetMousePosition v).tempInp.mouse = v) ∧
    (¬((0 ≤ v.x ∧ v.x ≤ w.bounds.W) ∧ (0 ≤ v.y ∧ v.y ≤ w.bounds.H)) →
      w.SetMousePosition v = w) := by
  constructor
  · intro hin
    rw [Window.SetMousePosition, if_pos hin]
    exact ⟨rfl, rfl, rfl, rfl, rfl⟩
  · intro hout
    rw [Window.SetMousePosition, if_neg hout]

/-- Witness for the amended C6: the in-bounds move to (0, 0) on `wOff` is
visible to `MousePosition` at once, and the out-of-bounds move to (-1, 0)
on `w0` changes nothing. -/
theorem setMousePosition_amended_witness :
    (wOff.SetMousePosition ⟨0, 0⟩).MousePosition = ⟨0, 0⟩ ∧
    w0.SetMousePosition ⟨-1, 0⟩ = w0 :=
  ⟨((setMousePosition_amended wOff ⟨0, 0⟩).1
      (by norm_num [wOff, w0, Rect.W, Rect.H])).2.2.1,
   (setMousePosition_amended w0 ⟨-1, 0⟩).2
      (by norm_num [w0, Rect.W, Rect.H])⟩

/-- Claim C7: the bounds re-derivation in `Update` keeps the old minimum
corner and changes the extent exactly by the delta between the new native
size and the last known integer-rounded size. -/
theorem update_bounds_anchor (b : Rect) (newW newH : Int) :
    (updateBounds b newW newH).min = b.min ∧
    (updateBounds b newW newH).W
      = b.W + ((newW : Rat) - ((intBounds b).w : Rat)) ∧
    (updateBounds b newW newH).H
      = b.H + ((newH : Rat) - ((intBounds b).h : Rat)) := by
  refine ⟨rfl, ?_, ?_⟩ <;>
    simp only [updateBounds, Rect.resizedMin, Rect.size, Vec.add, Rect.W,
      Rect.H] <;>
    push_cast <;>
    ring

/-- Claim C8: entering fullscreen from a windowed state and then returning
to windowed restores exactly the native position and size captured into
the restore record on entry. -/
theorem fullscreen_roundtrip_restore (w : Window) (m : MonRef)
    (f1 f2 : Nat) (modes : Nat → VideoMode)
    (hw : w.native.monitor = none) :
    ((w.SetMonitor (some m) f1 modes).SetMonitor none f2 modes).native.xpos
      = w.native.xpos ∧
    ((w.SetMonitor (some m) f1 modes).SetMonitor none f2 modes).native.ypos
      = w.native.ypos ∧
    ((w.SetMonitor (some m) f1 modes).SetMonitor none f2 modes).native.width
      = w.native.width ∧
    ((w.SetMonitor (some m) f1 modes).SetMonitor none f2 modes).native.height
      = w.native.height := by
  have h1 : w.SetMonitor (some m) f1 modes = w.setFullscreen m modes := by
    simp [Window.SetMonitor, Window.Monitor, hw, ptrNe]
  rw [h1]
  simp [Window.SetMonitor, Window.Monitor, Window.setFullscreen,
    Window.setWindowed, ptrNe, Option.map]

/-- Witness for C8 on the concrete windowed window `w0` (position (30, 40),
size 800 x 600) entering fullscreen on monitor handle 5 and leaving it. -/
theorem fullscreen_roundtrip_restore_witness :
    ((w0.SetMonitor (some ⟨1, 5⟩) 2 modes0).SetMonitor none 3 modes0).native.xpos
      = w0.native.xpos ∧
    ((w0.SetMonitor (some ⟨1, 5⟩) 2 modes0).SetMonitor none 3 modes0).native.ypos
      = w0.native.ypos ∧
    ((w0.SetMonitor (some ⟨1, 5⟩) 2 modes0).SetMonitor none 3 modes0).native.width
      = w0.native.width ∧
    ((w0.SetMonitor (some ⟨1, 5⟩) 2 modes0).SetMonitor none 3 modes0).native.height
      = w0.native.height :=
  fullscreen_roundtrip_restore w0 ⟨1, 5⟩ 2 3 modes0 rfl

/-- Claim C9: `NewWindow` returns a nil window and a non-nil error exactly
when native window creation fails, wrapping the cause as
"creating window failed: cause"; on success the window is non-nil and the
error nil. -/
theorem newWindow_error_contract (width height : Int) :
    (∀ cause : String,
      NewWindow width height (.error cause)
        = .error ("creating window failed: " ++ cause)) ∧
    (∀ g : GlfwWindow, ∃ win : Window,
      NewWindow width height (.ok g) = .ok win) :=
  ⟨fun _ => rfl, fun _ => ⟨_, rfl⟩⟩

/-- Claim C10: a key event carrying `KeyUnknown` is ignored by the key
callback before any buffer write, and for every event code GLFW can
deliver (`KeyUnknown` or a code in `[0, KeyLast]` for keys, a code in
`[0, MouseButtonLast]` for mouse buttons) every array write performed by
the key and mouse-button callbacks is in bounds — the guarded writes
never fail. -/
theorem callbacks_write_in_bounds (st : InputState) (key button : Int)
    (action : Nat) :
    keyCallback st keyUnknown action = some st ∧
    (key = keyUnknown ∨ (0 ≤ key ∧ key ≤ keyLast) →
      (keyCallback st key action).isSome = true) ∧
    (0 ≤ button ∧ button ≤ mouseButtonLast →
      (mouseButtonCallback st button action).isSome = true) := by
  refine ⟨by rw [keyCallback, if_pos rfl], ?_, ?_⟩
  · intro h
    rcases h with h | ⟨ha, hb⟩
    · simp [keyCallback, h]
    · by_cases hk : key = keyUnknown
      · simp [keyCallback, hk]
      · by_cases hp : action = actionPress
        · simp [keyCallback, hk, hp, boolArraySet, ha, hb]
        · by_cases hr : action = actionRelease
          · simp [keyCallback, hk, hp, hr, boolArraySet, ha, hb,
              actionPress, actionRelease]
          · by_cases hrep : action = actionRepeat
            · simp [keyCallback, hk, hp, hr, hrep, boolArraySet, ha, hb,
                actionPress, actionRelease, actionRepeat]
            · simp [keyCallback, hk, hp, hr, hrep]
  · intro ⟨ha, hb⟩
    have hb348 : button ≤ keyLast := by
      simp only [mouseButtonLast] at hb
      simp only [keyLast]
      omega
    by_cases hp : action = actionPress
    · simp [mouseButtonCallback, hp, boolArraySet, ha, hb348]
    · by_cases hr : action = actionRelease
      · simp [mouseButtonCallback, hp, hr, boolArraySet, ha, hb348,
          actionPress, actionRelease]
      · simp [mouseButtonCallback, hp, hr]

/-- Witness for C10 at key 3 / mouse button 0 with a press action. -/
theorem callbacks_write_in_bounds_witness :
    keyCallback InputState.zero keyUnknown actionPress = some InputState.zero ∧
    (keyCallback InputState.zero 3 actionPress).isSome = true ∧
    (mouseButtonCallback InputState.zero 0 actionPress).isSome = true :=
  ⟨(callbacks_write_in_bounds InputState.zero 3 0 actionPress).1,
   (callbacks_write_in_bounds InputState.zero 3 0 actionPress).2.1
     (Or.inr (by decide)),
   (callbacks_write_in_bounds InputState.zero 3 0 actionPress).2.2
     (by decide)⟩

end Pixelgl

